import Mathlib

/-!
Shallow embedding of the Trivia API backend (Flask application in
`backend/flaskr/__init__.py` together with the paginator in
`backend/flaskr/pagination.py`), and proofs of the specification's claims
about it.

Conventions of the embedding:
* The persistence layer is modelled as an explicit list of `Question`
  records (the `store`) and a list of `Category` records (`cats`).  A query
  such as `Question.query.all()` reads that list; `order_by` is a sort.
  The `cats` argument always stands for `Category.query.order_by(Category.type).all()`
  already in database order, so handlers sort it with `sortByType` themselves.
* JSON response bodies are values of the inductive type `JVal`; `jsonify`
  builds a `JVal.obj` whose field list mirrors the Python dict literal in
  source order.
* A handler returns `Except Nat JVal`: `Except.error c` stands for
  `abort(c)` (the HTTP error status produced), `Except.ok body` for a 200
  response with the given JSON body.
* Python exceptions raised inside a `try` block are the inductive `PyExn`;
  the bare `except:` of the source catches every constructor.
* `random.randint(0, n - 1)` is modelled by an oracle argument
  `pick : Nat`; the drawn index is `pick % n`, and any index below `n` is
  reachable by a suitable `pick`.  `randint(0, -1)` (empty range) raises
  `ValueError`.
* The `page` query parameter `request.args.get("page", 1, type=int)` is an
  explicit `Int` argument of each handler that paginates.
-/

/-- JSON values, as produced by `jsonify`. -/
inductive JVal where
  | null : JVal
  | bool : Bool → JVal
  | int : Int → JVal
  | str : String → JVal
  | arr : List JVal → JVal
  | obj : List (String × JVal) → JVal
deriving Repr

/-- Keys of a JSON object, in source order; `[]` for non-objects. -/
def jKeys : JVal → List String
  | JVal.obj fs => fs.map Prod.fst
  | _ => []

/-- First binding of key `k` in a JSON object (Python dict lookup). -/
def jGet : JVal → String → Option JVal
  | JVal.obj fs, k => (fs.find? (fun p => p.fst == k)).map Prod.snd
  | _, _ => none

/-- Keys of a handler result's body; `[]` when the handler aborted. -/
def respKeys : Except Nat JVal → List String
  | Except.ok j => jKeys j
  | Except.error _ => []

/-- Field lookup on a handler result's body; `none` when the handler aborted. -/
def respGet : Except Nat JVal → String → Option JVal
  | Except.ok j, k => jGet j k
  | Except.error _, _ => none

/-- True exactly when the handler returned a 200 body rather than aborting. -/
def isSuccess : Except Nat JVal → Bool
  | Except.ok _ => true
  | Except.error _ => false

/-- Modelled from the spec: the `Question` record of `models.py` (the file is
not under `src/`): id (integer, unique), question (text), answer (text),
category (string identifier storing a stringified category id), difficulty
(integer rating). -/
structure Question where
  id : Nat
  question : String
  answer : String
  category : String
  difficulty : Nat
deriving Repr, DecidableEq

/-- Modelled from the spec: the `Category` record of `models.py`: id
(integer, unique) and type (string label). -/
structure Category where
  id : Nat
  type : String
deriving Repr, DecidableEq

/-- Modelled from the spec: `Question.format()` of `models.py` serializes the
record's five fields into a JSON object. -/
def Question.format (q : Question) : JVal :=
  JVal.obj
    [("id", JVal.int q.id),
     ("question", JVal.str q.question),
     ("answer", JVal.str q.answer),
     ("category", JVal.str q.category),
     ("difficulty", JVal.int q.difficulty)]

/-- Modelled from the spec: `Category.format()` of `models.py` serializes id
and type into a JSON object. -/
def Category.format (c : Category) : JVal :=
  JVal.obj [("id", JVal.int c.id), ("type", JVal.str c.type)]

/-- `order_by(Question.difficulty)`: sort the query result by the
`difficulty` column. -/
def sortByDifficulty (qs : List Question) : List Question :=
  List.insertionSort (fun a b => a.difficulty ≤ b.difficulty) qs

/-- `order_by(Category.type)`: sort the query result by the `type` column. -/
def sortByType (cs : List Category) : List Category :=
  List.insertionSort (fun a b => a.type ≤ b.type) cs

/-- Clamp one bound of a Python slice `l[i:j]` for a list of length `n`:
a negative index counts from the end (floored at 0), a non-negative index is
capped at `n`. -/
def pySliceIdx (n : Nat) (i : Int) : Nat :=
  if i < 0 then (i + n).toNat else min i.toNat n

/-- Python list slicing `l[i:j]` with its negative-index semantics. -/
def pySlice {α : Type} (l : List α) (i j : Int) : List α :=
  (l.take (pySliceIdx l.length j)).drop (pySliceIdx l.length i)

/-- `paginate` from `backend/flaskr/pagination.py`.  The first argument is
the value of `request.args.get("page", 1, type=int)`; `QUESTIONS_PER_PAGE`
is the page-size argument (the constant 10 at every call site).  The list
comprehension at line 11 copies `selection`; the function mutates nothing. -/
def paginate {α : Type} (page : Int) (selection : List α)
    (QUESTIONS_PER_PAGE : Nat) : List α :=
  let start : Int := (page - 1) * QUESTIONS_PER_PAGE
  let «end» : Int := start + QUESTIONS_PER_PAGE
  let questions := selection.map (fun question => question)
  pySlice questions start «end»

/-- Python exceptions that the quiz handler's bare `except:` can catch. -/
inductive PyExn where
  | typeError : PyExn
  | valueError : PyExn
deriving Repr, DecidableEq

/-- Python equality between an integer (an element of `previous_questions`)
and a list of formatted-question dicts: values of different types, so `==`
is always `False`. -/
def pyEqNatList (_i : Nat) (_xs : List JVal) : Bool :=
  false

/-- Python `len()` applied to a boolean value: raises `TypeError` (a bool
has no length). -/
def pyLenBool (_b : Bool) : Except PyExn Nat :=
  Except.error PyExn.typeError

/-- The candidate pool of the first branch of `play_quiz` (line 234): all
questions ordered by difficulty. -/
def quiz_pool_all (store : List Question) : List Question :=
  sortByDifficulty store

/-- The candidate pool of the second branch of `play_quiz` (lines 241-243):
the questions whose `category` column equals the request's `quiz_category`
value.  When `quiz_category` is `None` the SQL comparison with `NULL` never
holds, so the pool is empty. -/
def quiz_pool_category (store : List Question) (quiz_category : Option String) :
    List Question :=
  store.filter (fun q => quiz_category == some q.category)

/-- First branch of `play_quiz` (lines 233-237): fetch all questions ordered
by difficulty, format them, draw `random.randint(0, len - 1)` and append the
question at that index.  On an empty store `randint(0, -1)` raises
`ValueError`.  The result is the `next_question` list (formatting to JSON is
applied by the response builder). -/
def quiz_branch_all (store : List Question) (pick : Nat) :
    Except PyExn (List Question) :=
  let questions := quiz_pool_all store
  if h : questions.length = 0 then Except.error PyExn.valueError
  else
    Except.ok [questions.get ⟨pick % questions.length,
      Nat.mod_lt _ (Nat.pos_of_ne_zero h)⟩]

/-- Second branch of `play_quiz` (lines 239-251).  Line 247 computes
`available_questions = questions_list not in previous_questions`: a
*membership test of the whole list* among the integers of
`previous_questions`, hence a boolean (`True`, since an integer never equals
a list).  When `previous_questions` is `None` the `not in` itself raises
`TypeError` (`NoneType` is not iterable).  Line 248 then calls
`len(available_questions)` on that boolean, which raises `TypeError`, so
this branch never returns a question. -/
def quiz_branch_category (store : List Question)
    (previous_questions : Option (List Nat)) (quiz_category : Option String) :
    Except PyExn (List Question) :=
  let questions := quiz_pool_category store quiz_category
  let questions_list := questions.map Question.format
  match previous_questions with
  | none => Except.error PyExn.typeError
  | some prev =>
    let available_questions : Bool :=
      ! prev.any (fun i => pyEqNatList i questions_list)
    match pyLenBool available_questions with
    | Except.error e => Except.error e
    | Except.ok _ => Except.error PyExn.typeError

/-- Body of the `try` block of `play_quiz` (lines 227-258).  The condition
at line 233 is `quiz_category == None and len(previous_questions) == 0`;
Python's `and` short-circuits, so `len(previous_questions)` (raising
`TypeError` on `None`) is evaluated only when `quiz_category` is `None`. -/
def play_quiz_try (store : List Question)
    (previous_questions : Option (List Nat)) (quiz_category : Option String)
    (pick : Nat) : Except PyExn (List Question) :=
  match quiz_category with
  | none =>
    match previous_questions with
    | none => Except.error PyExn.typeError
    | some prev =>
      if prev.length = 0 then quiz_branch_all store pick
      else quiz_branch_category store (some prev) none
  | some c => quiz_branch_category store previous_questions (some c)

/-- The `play_quiz` handler (POST `/quizzes`, lines 215-261): any exception
escaping the `try` block is caught by the bare `except:` and turned into
`abort(422)`.  `Except.ok nq` stands for the 200 response
`{"success": True, "question": nq formatted}`. -/
def play_quiz (store : List Question) (previous_questions : Option (List Nat))
    (quiz_category : Option String) (pick : Nat) :
    Except Nat (List Question) :=
  match play_quiz_try store previous_questions quiz_category pick with
  | Except.ok nq => Except.ok nq
  | Except.error _ => Except.error 422

/-- Modelled from the spec: the *eligible pool* of the quiz selector
(glossary and section 4.2) — the candidate pool for the requested category
(all questions ordered by difficulty when the category is absent) minus the
questions whose id appears in `previousQuestionIds`. -/
def specEligiblePool (store : List Question) (category : Option String)
    (previousQuestionIds : List Nat) : List Question :=
  (match category with
   | none => sortByDifficulty store
   | some c => store.filter (fun q => q.category == c)).filter
    (fun q => ! previousQuestionIds.contains q.id)

/-- SQL `ILIKE '%term%'`: case-insensitive substring test, used by the
search endpoint. -/
def ilike (hay term : String) : Bool :=
  decide (List.IsInfix term.toLower.toList hay.toLower.toList)

/-- The `get_questions` handler (GET `/questions`, lines 58-86).  Note the
success body binds the formatted categories to the key `"category"`
(line 80). -/
def get_questions (store : List Question) (cats : List Category)
    (page : Int) : Except Nat JVal :=
  let questions := store
  let questions_list := questions.map Question.format
  let paginated_questions := paginate page questions_list 10
  let formatted_categories := (sortByType cats).map Category.format
  if questions.length ≠ 0 then
    Except.ok (JVal.obj
      [("success", JVal.bool true),
       ("questions", JVal.arr paginated_questions),
       ("total_questions", JVal.int questions_list.length),
       ("category", JVal.arr formatted_categories),
       ("current_category", JVal.null)])
  else Except.error 404

/-- The `delete_question` handler (DELETE `/questions/<id>`, lines 92-121).
The result pairs the question store after the request with the HTTP
response.  `one_or_none()` yields `None` when no row matches (then
`abort(422)`, store untouched) and raises `MultipleResultsFound` when
several rows match (uncaught, hence a 500 response and no deletion); with a
unique match the row is deleted and a success body built from the remaining
rows. -/
def delete_question (store : List Question) (cats : List Category)
    (page : Int) (question_id : Nat) :
    List Question × Except Nat JVal :=
  match store.filter (fun q => q.id == question_id) with
  | [] => (store, Except.error 422)
  | [_] =>
    let newStore := store.filter (fun q => q.id != question_id)
    let questions_list := newStore
    let categories_list := sortByType cats
    let paginated_questions := paginate page questions_list 10
    let categories := categories_list.map Category.format
    (newStore, Except.ok (JVal.obj
      [("success", JVal.bool true),
       ("questions", JVal.arr (paginated_questions.map Question.format)),
       ("total_questions", JVal.int questions_list.length),
       ("categories", JVal.arr categories),
       ("current_category", JVal.null)]))
  | _ :: _ :: _ => (store, Except.error 500)

/-- The `search_question` handler (POST `/question/search`, lines 151-178).
`total_questions` is `len(Question.query.all())` (line 174): the size of the
whole store, not of the matching set. -/
def search_question (store : List Question) (cats : List Category)
    (searchTerm : Option String) : Except Nat JVal :=
  match searchTerm with
  | none => Except.error 404
  | some term =>
    let matching_questions :=
      List.insertionSort (fun a b => a.difficulty ≤ b.difficulty)
        (store.filter (fun q => ilike q.question term))
    let questions := matching_questions.map Question.format
    let categories_list := (sortByType cats).map Category.format
    Except.ok (JVal.obj
      [("success", JVal.bool true),
       ("questions", JVal.arr questions),
       ("total_questions", JVal.int store.length),
       ("categories", JVal.arr categories_list),
       ("current_category", JVal.null)])

/-- The `get_questions_by_category` handler (GET
`/categories/<id>/questions`, lines 180-213).  `total_questions` is
`len(Question.query.all())` (lines 202, 207): the size of the whole store,
not of the category's questions. -/
def get_questions_by_category (store : List Question) (cats : List Category)
    (category_id : Nat) (page : Int) : Except Nat JVal :=
  let category := toString category_id
  let questions :=
    List.insertionSort (fun a b => a.difficulty ≤ b.difficulty)
      (store.filter (fun q => q.category == category))
  if questions.length ≠ 0 then
    let paginated_questions := paginate page questions 10
    let questions_list := paginated_questions.map Question.format
    let formatted_categories := (sortByType cats).map Category.format
    let all_questions := store
    Except.ok (JVal.obj
      [("success", JVal.bool true),
       ("questions", JVal.arr questions_list),
       ("total_questions", JVal.int all_questions.length),
       ("categories", JVal.arr formatted_categories),
       ("current_category", JVal.null)])
  else Except.error 404

/-- Body returned by the 404 error handler (lines 267-278). -/
def not_found_body : JVal :=
  JVal.obj
    [("success", JVal.bool false),
     ("error", JVal.int 404),
     ("message", JVal.str "Resource not found")]

/-- Body returned by the 405 error handler (lines 284-288). -/
def not_allowed_body : JVal :=
  JVal.obj
    [("success", JVal.bool false),
     ("error", JVal.int 405),
     ("message", JVal.str "method not allowed")]

/-- Body returned by the 422 error handler (lines 294-305).  The first key
is spelled `"sucess"` in the source. -/
def unprocessable_body : JVal :=
  JVal.obj
    [("sucess", JVal.bool false),
     ("error", JVal.int 422),
     ("message", JVal.str "Unprocessable entity")]

/-- Test fixture: a question of category "1". -/
def q1 : Question :=
  { id := 1, question := "What is gravity", answer := "a force",
    category := "1", difficulty := 1 }

/-- Test fixture: a question of category "2". -/
def q2 : Question :=
  { id := 2, question := "Who painted this", answer := "someone",
    category := "2", difficulty := 3 }

/-- Test fixture: a one-question store. -/
def store1 : List Question := [q1]

/-- Test fixture: a two-question store spanning two categories. -/
def store2 : List Question := [q1, q2]

/-- Test fixture: a single category row. -/
def cats1 : List Category := [{ id := 1, type := "Science" }]

/-- The list-comprehension copy inside `paginate` leaves the slice over the
original `selection`. -/
theorem paginate_eq_pySlice {α : Type} (page : Int) (selection : List α)
    (size : Nat) :
    paginate page selection size
      = pySlice selection ((page - 1) * size) ((page - 1) * size + size) := by
  unfold paginate
  have hcopy : selection.map (fun question => question) = selection := by simp
  rw [hcopy]

/-- A Python slice with a non-negative start `i` and stop `i + k` is a drop
followed by a take. -/
theorem pySlice_nonneg {α : Type} (l : List α) (i : Int) (k : Nat)
    (hi : 0 ≤ i) :
    pySlice l i (i + k) = (l.drop i.toNat).take k := by
  unfold pySlice pySliceIdx
  rw [if_neg (by omega), if_neg (by omega)]
  rw [Int.toNat_add hi (by positivity), Int.toNat_natCast]
  rw [List.drop_take]
  rcases le_or_lt i.toNat l.length with h | h
  · rw [min_eq_left h]
    rw [List.take_eq_take.mpr ?_]
    rw [List.length_drop]
    omega
  · rw [List.drop_eq_nil_of_le (by omega : l.length ≤ i.toNat)]
    rw [List.take_nil]
    have h1 : min (i.toNat + k) l.length = l.length := by omega
    have h2 : min i.toNat l.length = l.length := by omega
    rw [h1, h2]
    simp

/-- C4: for every ordered sequence `items`, positive page number and
positive page size, `paginate` returns the sub-sequence of `items` in the
index range `[start, start + size)` with `start = (page - 1) * size`,
preserving original order, and returns `[]` whenever `start` is at least
the length of `items`. -/
theorem paginate_returns_requested_page {α : Type} (page : Int)
    (items : List α) (size : Nat) (hp : 1 ≤ page) (hs : 0 < size) :
    paginate page items size
      = (items.drop ((page - 1) * size).toNat).take size ∧
    (items.length ≤ ((page - 1) * size).toNat →
      paginate page items size = []) := by
  have hstart : (0:Int) ≤ (page - 1) * size :=
    mul_nonneg (by omega) (by positivity)
  refine ⟨?_, ?_⟩
  · rw [paginate_eq_pySlice, pySlice_nonneg _ _ _ hstart]
  · intro hlen
    rw [paginate_eq_pySlice, pySlice_nonneg _ _ _ hstart,
      List.drop_eq_nil_of_le hlen, List.take_nil]

/-- Witness for C4: page 2 of 25 items at page size 10 is the index range
`[10, 20)`. -/
theorem paginate_returns_requested_page_witness :
    (1:Int) ≤ 2 ∧ 0 < 10 ∧
    paginate 2 (List.range 25) 10
      = ((List.range 25).drop (((2:Int) - 1) * 10).toNat).take 10 :=
  ⟨by norm_num, by norm_num,
    (paginate_returns_requested_page 2 (List.range 25) 10 (by norm_num)
      (by norm_num)).1⟩

/-- C8: for every input, the result of `paginate` is a contiguous
sub-sequence (infix) of the input: no element is reordered or duplicated.
The embedding of `paginate` is a pure function of its three arguments and
the comprehension at pagination.py line 11 copies `selection`, so the input
list is never mutated. -/
theorem paginate_contiguous_subsequence {α : Type} (page : Int)
    (items : List α) (size : Nat) :
    List.IsInfix (paginate page items size) items := by
  rw [paginate_eq_pySlice]
  unfold pySlice
  exact ((List.drop_suffix _ _).isInfix).trans
    ((List.take_prefix _ _).isInfix)

/-- C9: for a non-positive page number, `paginate` performs no validation
or clamping: the computed `start = (page - 1) * size` is negative, the
Python slice is applied with that unguarded start, page 0 yields `[]`
(the slice `[-size, 0)`), and the result is not the clamped first page. -/
theorem paginate_unguarded_for_nonpositive_page {α : Type} (items : List α)
    (size : Nat) (page : Int) (hp : page ≤ 0) (hs : 0 < size) :
    (page - 1) * size < 0 ∧
    paginate page items size
      = pySlice items ((page - 1) * size) ((page - 1) * size + size) ∧
    paginate 0 items size = [] ∧
    (items ≠ [] → paginate 0 items size ≠ paginate 1 items size) := by
  have hzero : paginate 0 items size = [] := by
    have h0 : ((0:Int) - 1) * size + size = 0 := by ring
    have hj : pySliceIdx items.length 0 = 0 := by simp [pySliceIdx]
    rw [paginate_eq_pySlice, h0]
    unfold pySlice
    rw [hj]
    simp
  refine ⟨?_, paginate_eq_pySlice page items size, hzero, ?_⟩
  · have h1 : page - 1 < 0 := by omega
    have h2 : (0:Int) < size := by exact_mod_cast hs
    exact mul_neg_of_neg_of_pos h1 h2
  · intro hne heq
    rw [hzero] at heq
    have hone : paginate 1 items size
        = (items.drop (((1:Int) - 1) * size).toNat).take size :=
      (paginate_returns_requested_page 1 items size (by norm_num) hs).1
    have hsimp : (((1:Int) - 1) * size).toNat = 0 := by norm_num
    rw [hsimp, List.drop_zero] at hone
    rw [hone] at heq
    have hpos : 0 < items.length := List.length_pos.mpr hne
    have : (List.take size items).length = min size items.length :=
      List.length_take size items
    rw [← heq] at this
    simp only [List.length_nil] at this
    omega

/-- Witness for C9: page 0 over a three-element list with page size 10. -/
theorem paginate_unguarded_witness :
    (0:Int) ≤ 0 ∧ 0 < 10 ∧
    (((0:Int) - 1) * 10 < 0 ∧
     paginate 0 ([1, 2, 3] : List Nat) 10
       = pySlice [1, 2, 3] (((0:Int) - 1) * 10) (((0:Int) - 1) * 10 + 10) ∧
     paginate 0 ([1, 2, 3] : List Nat) 10 = [] ∧
     (([1, 2, 3] : List Nat) ≠ [] →
       paginate 0 ([1, 2, 3] : List Nat) 10
         ≠ paginate 1 ([1, 2, 3] : List Nat) 10)) :=
  ⟨by norm_num, by norm_num,
    paginate_unguarded_for_nonpositive_page [1, 2, 3] 10 0 (by norm_num)
      (by norm_num)⟩

/-- The category branch of `play_quiz` never produces a question: line 247
yields a boolean and line 248 applies `len()` to it, raising `TypeError`. -/
theorem quiz_branch_category_fails (store : List Question)
    (previous_questions : Option (List Nat)) (quiz_category : Option String)
    (nq : List Question) :
    quiz_branch_category store previous_questions quiz_category
      ≠ Except.ok nq := by
  unfold quiz_branch_category
  cases previous_questions with
  | none => intro h; exact Except.noConfusion h
  | some prev => intro h; simp [pyLenBool] at h

/-- C1: every question returned by the quiz handler has an id outside the
supplied `previous_questions` list.  (The only branch that can return a
question requires that list to be empty; with a non-empty list the handler
always aborts with 422, so no returned id can collide.) -/
theorem play_quiz_never_repeats_previous (store : List Question)
    (previousQuestionIds : List Nat) (quiz_category : Option String)
    (pick : Nat) (nq : List Question)
    (h : play_quiz store (some previousQuestionIds) quiz_category pick
      = Except.ok nq) :
    ∀ q ∈ nq, q.id ∉ previousQuestionIds := by
  cases quiz_category with
  | some c =>
    exfalso
    simp only [play_quiz, play_quiz_try] at h
    revert h
    cases heq : quiz_branch_category store (some previousQuestionIds) (some c) with
    | ok v => exact fun _ => quiz_branch_category_fails _ _ _ _ heq
    | error e => intro h; exact Except.noConfusion h
  | none =>
    by_cases hl : previousQuestionIds.length = 0
    · have hnil : previousQuestionIds = [] :=
        List.eq_nil_of_length_eq_zero hl
      subst hnil
      intro q _
      exact List.not_mem_nil q.id
    · exfalso
      simp only [play_quiz, play_quiz_try] at h
      rw [if_neg hl] at h
      revert h
      cases heq : quiz_branch_category store (some previousQuestionIds) none with
      | ok v => exact fun _ => quiz_branch_category_fails _ _ _ _ heq
      | error e => intro h; exact Except.noConfusion h

/-- Witness for C1: on a one-question store with no previous questions the
handler returns that question, whose id is outside the empty list. -/
theorem play_quiz_never_repeats_previous_witness :
    play_quiz store1 (some []) none 0 = Except.ok [q1] ∧
    q1.id ∉ ([] : List Nat) :=
  ⟨rfl, play_quiz_never_repeats_previous store1 [] none 0 [q1] rfl q1
    (List.mem_singleton_self q1)⟩

/-- C2 evaluation: on a store whose single question is already among
`previous_questions` (the eligible pool of the spec is empty), the handler
aborts with 422 instead of signalling "no question available" without an
error; no persistence failure is involved. -/
theorem play_quiz_422_on_exhausted_pool :
    specEligiblePool store1 (some "1") [1] = [] ∧
    play_quiz store1 (some [1]) (some "1") 0 = Except.error 422 :=
  ⟨rfl, rfl⟩

/-- C3 evaluation: with an absent category and a non-empty
`previous_questions` list, the handler takes the category branch: its pool
`quiz_pool_category store1 none` is empty rather than all questions ordered
by difficulty (`quiz_pool_all store1 = [q1]`), the spec's eligible pool is
non-empty, and the request ends in a 422 instead of drawing from the
all-questions pool. -/
theorem play_quiz_ignores_all_pool_when_previous_nonempty :
    quiz_pool_all store1 = [q1] ∧
    quiz_pool_category store1 none = [] ∧
    specEligiblePool store1 none [5] = [q1] ∧
    play_quiz store1 (some [5]) none 0 = Except.error 422 :=
  ⟨rfl, rfl, rfl, rfl⟩

/-- C5 counterexample: on a non-empty store the GET `/questions` success
body's keys are exactly `success, questions, total_questions, category,
current_category` — the key `categories` claimed by the spec is absent
(the source binds the formatted categories to `"category"`). -/
theorem get_questions_body_lacks_categories_key :
    respKeys (get_questions store1 cats1 1)
      = ["success", "questions", "total_questions", "category",
         "current_category"] ∧
    "categories" ∉ respKeys (get_questions store1 cats1 1) :=
  ⟨rfl, by decide⟩

/-- C5 amended: for every non-empty store, the GET `/questions` success body
contains the keys `success` (bound to `true`), `questions`,
`total_questions`, `category` (not `categories`), and `current_category`
bound to `null`. -/
theorem get_questions_success_body_keys (store : List Question)
    (cats : List Category) (page : Int) (hne : store ≠ []) :
    respKeys (get_questions store cats page)
      = ["success", "questions", "total_questions", "category",
         "current_category"] ∧
    respGet (get_questions store cats page) "success"
      = some (JVal.bool true) ∧
    respGet (get_questions store cats page) "current_category"
      = some JVal.null := by
  have hlen : store.length ≠ 0 := by
    simpa [List.length_eq_zero] using hne
  simp only [get_questions]
  rw [if_pos hlen]
  exact ⟨rfl, rfl, rfl⟩

/-- Witness for the amended C5 on a concrete one-question store. -/
theorem get_questions_success_body_keys_witness :
    store1 ≠ [] ∧
    respKeys (get_questions store1 cats1 1)
      = ["success", "questions", "total_questions", "category",
         "current_category"] ∧
    respGet (get_questions store1 cats1 1) "success"
      = some (JVal.bool true) ∧
    respGet (get_questions store1 cats1 1) "current_category"
      = some JVal.null :=
  ⟨by decide, get_questions_success_body_keys store1 cats1 1 (by decide)⟩

/-- C6 evaluation: the 404 and 405 error bodies bind the key `success` to
`false`, but the 422 error body has no key `success` at all — its first key
is spelled `sucess` — so the claimed shape fails for 422. -/
theorem error_bodies_success_key :
    jGet not_found_body "success" = some (JVal.bool false) ∧
    jGet not_allowed_body "success" = some (JVal.bool false) ∧
    jGet unprocessable_body "success" = none ∧
    jGet unprocessable_body "sucess" = some (JVal.bool false) ∧
    jKeys unprocessable_body = ["sucess", "error", "message"] :=
  ⟨rfl, rfl, rfl, rfl, rfl⟩

/-- C7: deleting a question id that matches no stored question returns a
422 response and leaves the question store unchanged. -/
theorem delete_nonexistent_422_store_unchanged (store : List Question)
    (cats : List Category) (page : Int) (question_id : Nat)
    (h : ∀ q ∈ store, q.id ≠ question_id) :
    delete_question store cats page question_id
      = (store, Except.error 422) := by
  have hfil : store.filter (fun q => q.id == question_id) = [] := by
    rw [List.filter_eq_nil_iff]
    intro q hq
    simpa using h q hq
  unfold delete_question
  rw [hfil]

/-- Witness for C7: deleting id 999 from a store holding only id 1. -/
theorem delete_nonexistent_422_witness :
    delete_question store1 cats1 1 999 = (store1, Except.error 422) :=
  delete_nonexistent_422_store_unchanged store1 cats1 1 999 (by decide)

/-- C10: both the category-filtered listing and the search endpoint report
`total_questions` as the size of the whole question store, not the size of
the filtered or matching set. -/
theorem total_questions_counts_whole_store (store : List Question)
    (cats : List Category) (category_id : Nat) (page : Int) (term : String)
    (h1 : isSuccess (get_questions_by_category store cats category_id page)
      = true) :
    respGet (get_questions_by_category store cats category_id page)
      "total_questions" = some (JVal.int store.length) ∧
    respGet (search_question store cats (some term)) "total_questions"
      = some (JVal.int store.length) := by
  constructor
  · simp only [get_questions_by_category] at h1 ⊢
    by_cases hq : (List.insertionSort (fun a b => a.difficulty ≤ b.difficulty)
        (store.filter (fun q => q.category == toString category_id))).length
        ≠ 0
    · rw [if_pos hq]
      rfl
    · rw [if_neg hq] at h1
      exact absurd h1 (by simp [isSuccess])
  · rfl

/-- Witness for C10: a two-question store where category 1 matches a single
question, yet both endpoints report `total_questions = 2`. -/
theorem total_questions_counts_whole_store_witness :
    isSuccess (get_questions_by_category store2 cats1 1 1) = true ∧
    respGet (get_questions_by_category store2 cats1 1 1) "total_questions"
      = some (JVal.int 2) ∧
    respGet (search_question store2 cats1 (some "gravity"))
      "total_questions" = some (JVal.int 2) ∧
    (store2.filter (fun q => q.category == "1")).length ≠ store2.length :=
  ⟨rfl,
    (total_questions_counts_whole_store store2 cats1 1 1 "gravity" rfl).1,
    (total_questions_counts_whole_store store2 cats1 1 1 "gravity" rfl).2,
    by decide⟩
